import Mathlib

/-!
Verification development for the podcast backend's core subsystems:
the asynchronous task queue (`app/services/task_queue.py`), the episode
stage orchestrators (`app/api/summaries.py`, `app/api/transcripts.py`,
`app/api/episodes.py`), and the summarization engine with its prompt
builder and schema validator (`app/core/summarization/`).

Each definition is a shallow embedding of the Python function it is named
after; machine-level details that the embedded claims do not touch
(timestamps as wall-clock datetimes, the MongoDB driver, the thread pool)
are abstracted: times are `Nat`, the document store write is modelled as
the update document the code sends, and the worker-pool interleaving is a
small-step relation over one task record together with the worker's
program counter.
-/

/-- A single quote character, used inside several message strings that the
Python source builds with f-strings. -/
def squote : String := (Char.ofNat 39).toString

namespace TaskQueue

/-- Task status strings used by `task_queue.py`: `"pending"`, `"processing"`,
`"completed"`, `"failed"`. -/
inductive Status
  | pending
  | processing
  | completed
  | failed
deriving DecidableEq, Repr

/-- The task record created by `TaskQueue.submit` (the fields the claims
are about; `task_type`, `episode_id`, `feed_id`, `created_at` are constants
of a run and omitted). `progress` is an `Int` because the Python progress
callback accepts any integer and `_update_progress` stores it unchecked. -/
structure Task where
  status : Status
  progress : Int
  result : Option String
  errorMessage : Option String
  startedAt : Option Nat
  completedAt : Option Nat
deriving DecidableEq, Repr

/-- The record `submit` inserts: status `"pending"`, progress 0, all other
fields `None`. -/
def initialTask : Task :=
  { status := .pending, progress := 0, result := none, errorMessage := none,
    startedAt := none, completedAt := none }

/-- `_update_status(task_id, "processing", started_at=now)` — the first
line of the wrapper that `submit` schedules on the pool. -/
def applyStart (t : Task) (time : Nat) : Task :=
  { t with status := .processing, startedAt := some time }

/-- `_update_progress(task_id, p)`: stores `p` unchanged (the code has no
clamping). -/
def applyProgress (t : Task) (p : Int) : Task :=
  { t with progress := p }

/-- `_update_status(task_id, "completed", progress=100, result=result,
completed_at=now)` — the wrapper's normal-return path. -/
def applyComplete (t : Task) (r : String) (time : Nat) : Task :=
  { t with status := .completed, progress := 100, result := some r,
           completedAt := some time }

/-- `_update_status(task_id, "failed", error_message=str(e),
completed_at=now)` — the wrapper's exception path. -/
def applyFail (t : Task) (msg : String) (time : Nat) : Task :=
  { t with status := .failed, errorMessage := some msg, completedAt := some time }

/-- The error message `cancel` writes. -/
def cancelMessage : String := "Cancelled by user"

/-- `TaskQueue.cancel` applied to one task record: if the status is
`"pending"` it performs `_update_status(task_id, "failed",
error_message="Cancelled by user", completed_at=now)`; otherwise the
record is untouched. -/
def applyCancel (t : Task) (time : Nat) : Task :=
  if t.status = .pending then applyFail t cancelMessage time else t

/-- The worker's program counter for the wrapper closure that `submit`
hands to the thread pool: not yet dequeued, running `func`, or returned. -/
inductive Phase
  | notStarted
  | running
  | done
deriving DecidableEq, Repr

/-- One task's record paired with its wrapper's phase. -/
structure TQState where
  task : Task
  phase : Phase
deriving DecidableEq, Repr

/-- The state right after `submit` returns: record `"pending"`, wrapper
queued but not started. -/
def initState : TQState := ⟨initialTask, .notStarted⟩

/-- Atomic events the queue performs on a task record, cancellation
included.  `cancel` may arrive at any phase because `TaskQueue.cancel`
runs on the caller's thread while the wrapper sits in (or runs on) the
pool; `submit` never stores the `Future`, so a successful cancel does not
prevent the wrapper from later running. -/
inductive Step : TQState → TQState → Prop
  | start (t : Task) (time : Nat) :
      Step ⟨t, .notStarted⟩ ⟨applyStart t time, .running⟩
  | progress (t : Task) (p : Int) :
      Step ⟨t, .running⟩ ⟨applyProgress t p, .running⟩
  | complete (t : Task) (r : String) (time : Nat) :
      Step ⟨t, .running⟩ ⟨applyComplete t r time, .done⟩
  | fail (t : Task) (msg : String) (time : Nat) :
      Step ⟨t, .running⟩ ⟨applyFail t msg time, .done⟩
  | cancel (t : Task) (ph : Phase) (time : Nat) :
      Step ⟨t, ph⟩ ⟨applyCancel t time, ph⟩

/-- States reachable from submission when `cancel` may be called. -/
def Reachable (s : TQState) : Prop :=
  Relation.ReflTransGen Step initState s

/-- The engine's own events only — the trace of a task on which
`TaskQueue.cancel` is never invoked. -/
inductive StepNC : TQState → TQState → Prop
  | start (t : Task) (time : Nat) :
      StepNC ⟨t, .notStarted⟩ ⟨applyStart t time, .running⟩
  | progress (t : Task) (p : Int) :
      StepNC ⟨t, .running⟩ ⟨applyProgress t p, .running⟩
  | complete (t : Task) (r : String) (time : Nat) :
      StepNC ⟨t, .running⟩ ⟨applyComplete t r time, .done⟩
  | fail (t : Task) (msg : String) (time : Nat) :
      StepNC ⟨t, .running⟩ ⟨applyFail t msg time, .done⟩

/-- States reachable from submission along cancel-free traces. -/
def ReachableNC (s : TQState) : Prop :=
  Relation.ReflTransGen StepNC initState s

/-- Position of a status along `pending → processing → {completed, failed}`:
a forward-only life cycle is one whose rank never decreases. -/
def statusRank : Status → Nat
  | .pending => 0
  | .processing => 1
  | .completed => 2
  | .failed => 2

/-- A status is terminal when it is `"completed"` or `"failed"`. -/
def Status.isTerminal : Status → Bool
  | .completed => true
  | .failed => true
  | _ => false

/-- The invariant a cancel-free trace maintains, keyed by the wrapper's
phase. -/
def InvNC : TQState → Prop
  | ⟨t, .notStarted⟩ => t.status = .pending ∧ t.completedAt = none
  | ⟨t, .running⟩ => t.status = .processing ∧ t.completedAt = none
  | ⟨t, .done⟩ =>
      (t.status = .completed ∨ t.status = .failed) ∧ t.completedAt.isSome = true

/- ### The in-memory task map (`self.tasks`) -/

/-- `self.tasks`, an association list from task id to record (first match
wins, as in a Python dict with unique keys). -/
def TaskMap := List (String × Task)

/-- Dictionary lookup `self.tasks[task_id]` / `task_id in self.tasks`. -/
def lookupTask : TaskMap → String → Option Task
  | [], _ => none
  | (k, t) :: rest, id => if k = id then some t else lookupTask rest id

/-- Field update `self.tasks[task_id] = ...` for a present key. -/
def setTask : TaskMap → String → Task → TaskMap
  | [], _, _ => []
  | (k, t) :: rest, id, t2 =>
      if k = id then (k, t2) :: rest else (k, t) :: setTask rest id t2

/-- `TaskQueue._update_progress` with the database configured: writes the
raw value into the in-memory record (when the task id is known) and sends
`{"$set": {"progress": p}}` to the store.  Returned second component is
the update document written to the Status Store (`none` when `_db` is not
set). -/
def updateProgress (dbSet : Bool) (tasks : TaskMap) (id : String) (p : Int) :
    TaskMap × Option (String × Int) :=
  (match lookupTask tasks id with
   | some t => setTask tasks id (applyProgress t p)
   | none => tasks,
   if dbSet then some (id, p) else none)

/-- `TaskQueue.cancel` on the in-memory map (no database configured, so
`get_status` is the in-memory lookup): returns the boolean result and the
map afterwards. -/
def cancel (tasks : TaskMap) (id : String) (time : Nat) : Bool × TaskMap :=
  match lookupTask tasks id with
  | none => (false, tasks)
  | some t =>
      if t.status ≠ .pending then (false, tasks)
      else (true, setTask tasks id (applyFail t cancelMessage time))

end TaskQueue

/- ## Summarization data model (`app/core/summarization/`) -/

/-- A parsed JSON value, as far as the validator's `isinstance` checks look
at it: Python `str`, `list`, `dict`, `int` and `None` (any further shapes
behave like `vInt`/`vNone` for the validator, which only tests the three
container kinds). -/
inductive Value
  | vStr (s : String)
  | vList (l : List Value)
  | vObj (entries : List (String × Value))
  | vInt (n : Int)
  | vNone

/-- `isinstance(v, str)`. -/
def Value.isStr : Value → Bool
  | .vStr _ => true
  | _ => false

/-- `isinstance(v, list)`. -/
def Value.isList : Value → Bool
  | .vList _ => true
  | _ => false

/-- `isinstance(v, dict)`. -/
def Value.isObj : Value → Bool
  | .vObj _ => true
  | _ => false

/-- `type(v).__name__`, used in the strict-mode error messages. -/
def Value.typeName : Value → String
  | .vStr _ => "str"
  | .vList _ => "list"
  | .vObj _ => "dict"
  | .vInt _ => "int"
  | .vNone => "NoneType"

/-- A parsed LLM output object: a Python dict with string keys (unique,
first match wins). -/
def FieldMap := List (String × Value)

/-- `field in data` / `data[field]` (`None` when absent). -/
def fmGet : FieldMap → String → Option Value
  | [], _ => none
  | (k, v) :: rest, f => if k = f then some v else fmGet rest f

/-- `field in data`. -/
def fmHas (m : FieldMap) (f : String) : Bool := (fmGet m f).isSome

/-- `result[field] = v` on a dict: overwrite in place when present,
append when absent. -/
def fmSet : FieldMap → String → Value → FieldMap
  | [], f, v => [(f, v)]
  | (k, w) :: rest, f, v =>
      if k = f then (f, v) :: rest else (k, w) :: fmSet rest f v

/-- The keys of a field map. -/
def fmKeys (m : FieldMap) : List String := m.map Prod.fst

/-- One optional block of a template (`Block` in the data model): the
fields the prompt builder and validator read. `output_field` may be
missing its `key` (or hold an empty one) — both are skipped by the code's
`if not key: continue`. `output_field.get("type", "string")` is modelled
by `outputFieldType : Option String` with the same default applied at use
sites. -/
structure Block where
  id : String
  outputFieldKey : Option String
  outputFieldType : Option String
  enabledByDefault : Bool
deriving DecidableEq, Repr

/-- `block.get("output_field", {}).get("key")` followed by the falsiness
test `if not key`: `none` and the empty string both mean "no key". -/
def Block.effectiveKey (b : Block) : String := b.outputFieldKey.getD ""

/-- The template fields the engine's validator and prompt builder read:
`locked.required_fields` (absent key defaults to `["tldr", "tags"]`) and
`optional_blocks`. -/
structure Template where
  requiredFields : Option (List String)
  optionalBlocks : List Block
deriving DecidableEq, Repr

/-- `template.get("locked", {}).get("required_fields", ["tldr", "tags"])`. -/
def Template.requiredFieldsOf (t : Template) : List String :=
  t.requiredFields.getD ["tldr", "tags"]

namespace SchemaValidator

/-- Validator strictness levels. -/
inductive Strictness
  | strict
  | normal
  | relaxed
deriving DecidableEq, Repr

/-- The active-block resolution both `SchemaValidator.validate` (lines
72–76) and `SchemaValidator.get_expected_fields` perform: an explicit id
list filters the catalogue by membership, `None` falls back to each
block's `enabled_by_default` flag. -/
def activeBlocks (allBlocks : List Block) (enabled : Option (List String)) :
    List Block :=
  match enabled with
  | some ids => allBlocks.filter (fun b => b.id ∈ ids)
  | none => allBlocks.filter (fun b => b.enabledByDefault)

/-- The error appended for a required field missing from the data. -/
def missingRequiredMsg (field : String) : String :=
  "Missing required field: " ++ field

/-- The strict-mode error for a block output key missing from the data. -/
def missingBlockMsg (blockId key : String) : String :=
  "Missing field from block " ++ squote ++ blockId ++ squote ++ ": " ++ key

/-- Accumulates the required-field portion of `validate`'s error list
(loop over `required_fields`). -/
def requiredFieldErrors (strictness : Strictness) (data : FieldMap)
    (required : List String) : List String :=
  required.foldl
    (fun errors field =>
      match fmGet data field with
      | none => errors ++ [missingRequiredMsg field]
      | some v =>
          if strictness = .strict then
            if field = "tldr" ∧ ¬ v.isStr then
              errors ++ ["Field " ++ squote ++ "tldr" ++ squote ++
                " must be string, got " ++ v.typeName]
            else if field = "tags" ∧ ¬ v.isList then
              errors ++ ["Field " ++ squote ++ "tags" ++ squote ++
                " must be array, got " ++ v.typeName]
            else errors
          else errors)
    []

/-- Accumulates the block portion of `validate`'s error list (loop over
the active blocks). In non-strict modes a missing block key is only
logged, never an error. -/
def blockErrors (strictness : Strictness) (data : FieldMap)
    (blocks : List Block) (acc : List String) : List String :=
  blocks.foldl
    (fun errors b =>
      let key := b.effectiveKey
      if key = "" then errors
      else
        let expectedType := b.outputFieldType.getD "string"
        match fmGet data key with
        | none =>
            if strictness = .strict then errors ++ [missingBlockMsg b.id key]
            else errors
        | some v =>
            if strictness = .strict then
              if expectedType = "string" ∧ ¬ v.isStr then
                errors ++ ["Field " ++ squote ++ key ++ squote ++ " must be string"]
              else if expectedType = "array" ∧ ¬ v.isList then
                errors ++ ["Field " ++ squote ++ key ++ squote ++ " must be array"]
              else if expectedType = "object" ∧ ¬ v.isObj then
                errors ++ ["Field " ++ squote ++ key ++ squote ++ " must be object"]
              else errors
            else errors)
    acc

/-- `SchemaValidator.validate(data, template, enabled_blocks)`: returns
`(is_valid, errors)`.  The input map is taken by value and only read —
the embedding is a pure function, matching the code, which never writes
to `data`. -/
def validate (strictness : Strictness) (data : FieldMap) (template : Template)
    (enabled : Option (List String)) : Bool × List String :=
  let errs1 := requiredFieldErrors strictness data template.requiredFieldsOf
  let errs := blockErrors strictness data
    (activeBlocks template.optionalBlocks enabled) errs1
  (errs = [], errs)

/-- The default `ensure_required_fields` injects for a missing required
field: the string `"Summary not available"` for `tldr`, the empty list
for `tags`, the empty string for anything else. -/
def defaultFor (field : String) : Value :=
  if field = "tldr" then .vStr "Summary not available"
  else if field = "tags" then .vList []
  else .vStr ""

/-- The body of `ensure_required_fields`'s loop over `required_fields`:
a field already present is left alone, a missing one is set to its
default. -/
def fillField (result : FieldMap) (field : String) : FieldMap :=
  if fmHas result field then result
  else if field = "tldr" then fmSet result "tldr" (.vStr "Summary not available")
  else if field = "tags" then fmSet result "tags" (.vList [])
  else fmSet result field (.vStr "")

/-- `SchemaValidator.ensure_required_fields(data, template)`: copy the
data, then give every still-missing required field a default.  Block
output keys are never touched. -/
def ensureRequiredFields (data : FieldMap) (template : Template) : FieldMap :=
  template.requiredFieldsOf.foldl fillField data

end SchemaValidator

namespace PromptBuilder

/-- `PromptBuilder.DEFAULT_MAX_CHARS`. -/
def DEFAULT_MAX_CHARS : Nat := 100000

/-- `PromptBuilder._resolve_enabled_blocks(all_blocks, enabled_blocks)`:
identical resolution to the validator's — an explicit list (empty
included) selects by id membership, and only `None` consults the
`enabled_by_default` flags. -/
def resolveEnabledBlocks (allBlocks : List Block)
    (enabledBlocks : Option (List String)) : List Block :=
  match enabledBlocks with
  | some ids => allBlocks.filter (fun b => b.id ∈ ids)
  | none => allBlocks.filter (fun b => b.enabledByDefault)

/-- The elision marker `_truncate_text` inserts
(`f"\n\n[... content truncated, total {len(text)} characters ...]\n\n"`). -/
def elisionMarker (totalLen : Nat) : List Char :=
  ("\n\n[... content truncated, total " ++ toString totalLen ++
    " characters ...]\n\n").toList

/-- Python `text[-t:]`: the last `t` characters, except that `t = 0`
yields the whole string. -/
def pyTail (text : List Char) (t : Nat) : List Char :=
  if t = 0 then text else text.drop (text.length - t)

/-- `PromptBuilder._truncate_text(text)` over a character list, for any
configured `max_chars` budget.  `head_size = int(max_chars * 0.6)` and
`tail_size = int(max_chars * 0.3)` are written as exact integer
arithmetic `max_chars * 6 / 10` and `max_chars * 3 / 10`, which agree
with the double-precision computation for every budget below the 2^53
range (the float products always round to the mathematically exact
values' floors). -/
def truncateText (maxChars : Nat) (text : List Char) : List Char :=
  if text.length ≤ maxChars then text
  else
    let headSize := maxChars * 6 / 10
    let tailSize := maxChars * 3 / 10
    text.take headSize ++ elisionMarker text.length ++ pyTail text tailSize

/-- `_truncate_text` at the engine's configuration (`PromptBuilder()`
leaves `max_chars` at `DEFAULT_MAX_CHARS = 100000`, so head 60000 and
tail 30000). -/
def truncateTextDefault (text : List Char) : List Char :=
  truncateText DEFAULT_MAX_CHARS text

end PromptBuilder

/- ## Summarization engine retry loop (`engine.py`) -/

/-- One chat message (`{"role": ..., "content": ...}`). -/
structure Message where
  role : String
  content : String
deriving DecidableEq, Repr

namespace SummarizationEngine

/-- `SummarizationEngine.MAX_RETRIES`. -/
def MAX_RETRIES : Nat := 2

/-- `SummarizationEngine._add_correction_hint(messages, errors)`: when the
final message is a user message, append the hint (which lists each
violation on its own `- ` line) to its content; otherwise return the list
unchanged. -/
def addCorrectionHint (messages : List Message) (errors : List String) :
    List Message :=
  let hint :=
    "\n\nIMPORTANT: Your previous response had validation issues:\n" ++
    String.intercalate "\n" (errors.map (fun e => "- " ++ e)) ++
    "\n\nPlease ensure your response includes all required fields with correct types."
  match messages.getLast? with
  | some m =>
      if m.role = "user" then
        messages.dropLast ++ [⟨"user", m.content ++ hint⟩]
      else messages
  | none => messages

/-- One LLM call outcome as `_call_with_retry` observes it: either the
parsed `result.get("data", {})` field map, or a raised client/transport
exception carrying its message. -/
def LLMOutcome := Except String FieldMap

/-- The body of `_call_with_retry`'s `for attempt in range(MAX_RETRIES + 1)`
loop.  `responses attempt` is the outcome of the LLM call made on that
attempt.  The engine constructs its validator with `strictness="normal"`.
The returned pair carries the final data together with the message list
in force at the returning attempt, so the correction-hint growth is
observable; the fuel equals the remaining loop iterations, so the
out-of-fuel branch is the `raise last_error or Exception(...)` line after
the loop (unreachable from `callWithRetry`'s full fuel). -/
def callWithRetryLoop (template : Template) (enabledBlocks : List String)
    (retryOnFailure : Bool) (responses : Nat → LLMOutcome) :
    Nat → Nat → List Message → Except String (FieldMap × List Message)
  | 0, _, _ => .error "Max retries exceeded"
  | fuel + 1, attempt, messages =>
    match responses attempt with
    | .error e =>
        if MAX_RETRIES ≤ attempt then .error e
        else callWithRetryLoop template enabledBlocks retryOnFailure responses
          fuel (attempt + 1) messages
    | .ok data =>
        let vres := SchemaValidator.validate .normal data template
          (some enabledBlocks)
        if vres.1 then .ok (data, messages)
        else if ¬ retryOnFailure ∨ MAX_RETRIES ≤ attempt then
          .ok (SchemaValidator.ensureRequiredFields data template, messages)
        else callWithRetryLoop template enabledBlocks retryOnFailure responses
          fuel (attempt + 1) (addCorrectionHint messages vres.2)

/-- `SummarizationEngine._call_with_retry(messages, template,
enabled_blocks, max_tokens, retry_on_failure)` (the `max_tokens` argument
only parameterizes the LLM call, already folded into `responses`). -/
def callWithRetry (template : Template) (enabledBlocks : List String)
    (retryOnFailure : Bool) (responses : Nat → LLMOutcome)
    (messages : List Message) : Except String (FieldMap × List Message) :=
  callWithRetryLoop template enabledBlocks retryOnFailure responses
    (MAX_RETRIES + 1) 0 messages

end SummarizationEngine

/- ## Entity state machine and stage orchestrators
(`app/models/episode.py`, `app/api/summaries.py`, `app/api/transcripts.py`,
`app/api/episodes.py`) -/

namespace Episode

/-- `Episode.STATUS_*` constants (statuses are plain strings in the code). -/
def STATUS_NEW : String := "new"

/-- `Episode.STATUS_DOWNLOADING`. -/
def STATUS_DOWNLOADING : String := "downloading"

/-- `Episode.STATUS_DOWNLOADED`. -/
def STATUS_DOWNLOADED : String := "downloaded"

/-- `Episode.STATUS_TRANSCRIBING`. -/
def STATUS_TRANSCRIBING : String := "transcribing"

/-- `Episode.STATUS_TRANSCRIBED`. -/
def STATUS_TRANSCRIBED : String := "transcribed"

/-- `Episode.STATUS_SUMMARIZING`. -/
def STATUS_SUMMARIZING : String := "summarizing"

/-- `Episode.STATUS_SUMMARIZED`. -/
def STATUS_SUMMARIZED : String := "summarized"

/-- `Episode.can_download(status)`. -/
def canDownload (status : String) : Bool := status = STATUS_NEW

/-- `Episode.can_transcribe(status)`. -/
def canTranscribe (status : String) : Bool := status = STATUS_DOWNLOADED

/-- `Episode.can_summarize(status)`: summarization requires the entity to
be in `"transcribed"`. -/
def canSummarize (status : String) : Bool := status = STATUS_TRANSCRIBED

end Episode

namespace Summaries

/-- The slice of the document store that `create_summary` reads for one
episode: the episode's status (`none` when no episode document exists),
the transcript document's `text` field (`none` when no transcript
document exists; the empty string is falsy for `transcript.get("text")`),
whether a summary for the resolved identifier (`template_name` /
`summary_type`) already exists, and whether a `pending`/`processing`
`summarize` task for this episode is on record. -/
structure Db where
  episodeStatus : Option String
  transcriptText : Option String
  summaryExists : Bool
  taskInProgress : Bool
deriving DecidableEq, Repr

/-- The possible responses of `POST /summaries/<episode_id>` (for a
well-formed ObjectId), in the order the checks appear in the code. -/
inductive Result
  | episodeNotFound
  | transcriptNotFound
  | summaryExists
  | taskInProgress
  | queued
deriving DecidableEq, Repr

/-- `create_summary` (summaries.py lines 89–160 plus the submit tail):
returns the response category and the episode-status write it performs
(`some "summarizing"` exactly on the success path).  The endpoint reads
the episode document but never consults its `status` field — there is no
`can_summarize` guard; the transcript-existence check is its only
prerequisite test. -/
def createSummary (db : Db) (force : Bool) : Result × Option String :=
  match db.episodeStatus with
  | none => (.episodeNotFound, none)
  | some _ =>
      match db.transcriptText with
      | none => (.transcriptNotFound, none)
      | some text =>
          if text = "" then (.transcriptNotFound, none)
          else if ¬ force ∧ db.summaryExists then (.summaryExists, none)
          else if db.taskInProgress then (.taskInProgress, none)
          else (.queued, some Episode.STATUS_SUMMARIZING)

end Summaries

namespace StageJobs

/-- `_download_episode_sync` (episodes.py lines 290–360), seen through its
episode-status writes: the lookups, file download and progress calls are
folded into `work`, which either yields the relative path or raises.  The
function body contains no exception handler, so the single status write
(`STATUS_DOWNLOADED` with `local_path`) happens only on the success path;
a raising job leaves the status wherever the endpoint put it
(`"downloading"`). -/
def downloadEpisodeSync (work : Except String String) (status : String) :
    String × Except String String :=
  match work with
  | .ok path => (Episode.STATUS_DOWNLOADED, .ok path)
  | .error e => (status, .error e)

/-- `_transcribe_sync` (transcripts.py lines 191–231): both success paths
(official transcript and AssemblyAI) end in a `STATUS_TRANSCRIBED` write
via `_save_transcript` or the inline update; there is no exception
handler, so a raising job performs no status write and the episode stays
`"transcribing"`. -/
def transcribeSync (work : Except String String) (status : String) :
    String × Except String String :=
  match work with
  | .ok text => (Episode.STATUS_TRANSCRIBED, .ok text)
  | .error e => (status, .error e)

/-- `_summarize_sync` (summaries.py lines 204–269): on success the summary
service's generation path sets the episode to `STATUS_SUMMARIZED`; the
whole body is wrapped in `try/except` whose handler writes
`STATUS_TRANSCRIBED` back and re-raises. -/
def summarizeSync (work : Except String String) (_status : String) :
    String × Except String String :=
  match work with
  | .ok r => (Episode.STATUS_SUMMARIZED, .ok r)
  | .error e => (Episode.STATUS_TRANSCRIBED, .error e)

end StageJobs

/- ## Helper lemmas -/

theorem fmGet_fmSet (m : FieldMap) (k f : String) (v : Value) :
    fmGet (fmSet m k v) f = if k = f then some v else fmGet m f := by
  induction m with
  | nil => simp [fmSet, fmGet]
  | cons kw rest ih =>
      obtain ⟨k1, w⟩ := kw
      by_cases h1 : k1 = k
      · subst h1
        simp only [fmSet, if_pos rfl, fmGet]
        split_ifs with h2 <;> simp [fmGet, h2]
      · simp only [fmSet, if_neg h1, fmGet]
        by_cases h2 : k1 = f
        · subst h2
          have hk : ¬ k = k1 := fun hc => h1 hc.symm
          simp [if_neg hk]
        · simp [if_neg h2, ih]

theorem lookupTask_setTask (tasks : TaskQueue.TaskMap) (id : String)
    (t t2 : TaskQueue.Task) (h : TaskQueue.lookupTask tasks id = some t) :
    TaskQueue.lookupTask (TaskQueue.setTask tasks id t2) id = some t2 := by
  induction tasks with
  | nil => simp [TaskQueue.lookupTask] at h
  | cons kw rest ih =>
      obtain ⟨k1, w⟩ := kw
      by_cases h1 : k1 = id
      · simp [TaskQueue.setTask, TaskQueue.lookupTask, h1]
      · simp only [TaskQueue.lookupTask, if_neg h1] at h
        simp [TaskQueue.setTask, TaskQueue.lookupTask, h1, ih h]

/- ## Claims about the task queue -/

/-- C2.  `TaskQueue.cancel(task_id)` returns true iff the task exists and
its status is `pending` at call time; after a true cancel the task's
record is `failed` with the cancellation error message and `completed_at`
set; in every other case the map is unchanged. -/
theorem cancel_pending_only (tasks : TaskQueue.TaskMap) (id : String)
    (time : Nat) :
    ((TaskQueue.cancel tasks id time).1 = true ↔
      ∃ t, TaskQueue.lookupTask tasks id = some t ∧
        t.status = TaskQueue.Status.pending)
    ∧ ((TaskQueue.cancel tasks id time).1 = false →
        (TaskQueue.cancel tasks id time).2 = tasks)
    ∧ (∀ t, TaskQueue.lookupTask tasks id = some t →
        t.status = TaskQueue.Status.pending →
        TaskQueue.lookupTask (TaskQueue.cancel tasks id time).2 id =
          some { t with status := TaskQueue.Status.failed,
                        errorMessage := some TaskQueue.cancelMessage,
                        completedAt := some time }) := by
  refine ⟨⟨?_, ?_⟩, ?_, ?_⟩
  · intro h
    unfold TaskQueue.cancel at h
    cases hcase : TaskQueue.lookupTask tasks id with
    | none => rw [hcase] at h; simp at h
    | some t =>
        rw [hcase] at h
        by_cases hp : t.status = TaskQueue.Status.pending
        · exact ⟨t, rfl, hp⟩
        · simp [hp] at h
  · rintro ⟨t, ht, hp⟩
    unfold TaskQueue.cancel
    rw [ht]
    simp [hp]
  · intro h
    unfold TaskQueue.cancel at h ⊢
    cases hcase : TaskQueue.lookupTask tasks id with
    | none => rfl
    | some t =>
        rw [hcase] at h
        by_cases hp : t.status = TaskQueue.Status.pending
        · simp [hp] at h
        · simp [hp]
  · intro t ht hp
    unfold TaskQueue.cancel
    rw [ht]
    simp only [hp, ne_eq, not_true_eq_false, if_false]
    exact lookupTask_setTask tasks id t _ ht

/-- C2 witness: cancelling a freshly submitted (`pending`) task succeeds
and leaves a `failed` record with the cancellation message. -/
theorem cancel_pending_only_witness :
    TaskQueue.lookupTask
      (TaskQueue.cancel [("a", TaskQueue.initialTask)] "a" 5).2 "a" =
      some { TaskQueue.initialTask with
              status := TaskQueue.Status.failed,
              errorMessage := some TaskQueue.cancelMessage,
              completedAt := some 5 } :=
  (cancel_pending_only [("a", TaskQueue.initialTask)] "a" 5).2.2
    TaskQueue.initialTask (by decide) (by decide)

/-- C3 counterexample: a progress callback value of 150 is recorded as 150
in both the in-memory record and the Status Store update — the engine
performs no clamping to [0, 100]. -/
theorem updateProgress_no_clamp_counterexample :
    TaskQueue.updateProgress true [("t", TaskQueue.initialTask)] "t" 150 =
      ([("t", { TaskQueue.initialTask with progress := 150 })],
        some ("t", 150))
    ∧ ¬ ((150 : Int) ≤ 100) := by
  constructor
  · rfl
  · decide

/-- C3 (amended).  Every progress-callback call writes the raw,
unclamped value through to the in-memory record (when the task id is
known) and to the Status Store update document (when the database is
configured); an unknown id leaves the map unchanged. -/
theorem updateProgress_writethrough (dbSet : Bool)
    (tasks : TaskQueue.TaskMap) (id : String) (p : Int) :
    (∀ t, TaskQueue.lookupTask tasks id = some t →
      TaskQueue.lookupTask (TaskQueue.updateProgress dbSet tasks id p).1 id =
        some { t with progress := p })
    ∧ (TaskQueue.lookupTask tasks id = none →
        (TaskQueue.updateProgress dbSet tasks id p).1 = tasks)
    ∧ ((TaskQueue.updateProgress dbSet tasks id p).2 =
        if dbSet then some (id, p) else none) := by
  refine ⟨?_, ?_, rfl⟩
  · intro t ht
    simp only [TaskQueue.updateProgress, ht]
    exact lookupTask_setTask tasks id t _ ht
  · intro ht
    simp [TaskQueue.updateProgress, ht]

/-- C3 (amended) witness: a call with value 42 on a known task id with
the database configured. -/
theorem updateProgress_writethrough_witness :
    TaskQueue.lookupTask
      (TaskQueue.updateProgress true [("t", TaskQueue.initialTask)] "t" 42).1
      "t" = some { TaskQueue.initialTask with progress := 42 } :=
  (updateProgress_writethrough true [("t", TaskQueue.initialTask)] "t" 42).1
    TaskQueue.initialTask (by decide)

/- ## Claims about the schema validator -/

theorem fmGet_fillField_ne (acc : FieldMap) (u f : String) (h : u ≠ f) :
    fmGet (SchemaValidator.fillField acc u) f = fmGet acc f := by
  unfold SchemaValidator.fillField
  split_ifs with h1 h2 h3
  · rfl
  · subst h2
    simp [fmGet_fmSet, h]
  · subst h3
    simp [fmGet_fmSet, h]
  · simp [fmGet_fmSet, h]

theorem fmGet_fillField_some (acc : FieldMap) (u f : String) (w : Value)
    (h : fmGet acc f = some w) :
    fmGet (SchemaValidator.fillField acc u) f = some w := by
  by_cases hu : u = f
  · subst hu
    unfold SchemaValidator.fillField
    have : fmHas acc u = true := by simp [fmHas, h]
    simp [this, h]
  · rw [fmGet_fillField_ne acc u f hu]
    exact h

theorem fmGet_fillField_self (acc : FieldMap) (f : String)
    (h : fmGet acc f = none) :
    fmGet (SchemaValidator.fillField acc f) f =
      some (SchemaValidator.defaultFor f) := by
  unfold SchemaValidator.fillField SchemaValidator.defaultFor
  have hh : fmHas acc f = false := by simp [fmHas, h]
  simp only [hh, Bool.false_eq_true, if_false]
  split_ifs with h1 h2
  · subst h1; simp [fmGet_fmSet]
  · subst h2; simp [fmGet_fmSet]
  · simp [fmGet_fmSet]

theorem fmGet_foldl_fillField_not_mem (fields : List String)
    (acc : FieldMap) (f : String) (h : f ∉ fields) :
    fmGet (fields.foldl SchemaValidator.fillField acc) f = fmGet acc f := by
  induction fields generalizing acc with
  | nil => rfl
  | cons u rest ih =>
      have hu : u ≠ f := fun hc => h (hc ▸ List.mem_cons_self u rest)
      have hr : f ∉ rest := fun hc => h (List.mem_cons_of_mem u hc)
      simp only [List.foldl_cons]
      rw [ih _ hr, fmGet_fillField_ne acc u f hu]

theorem fmGet_foldl_fillField_some (fields : List String)
    (acc : FieldMap) (f : String) (w : Value) (h : fmGet acc f = some w) :
    fmGet (fields.foldl SchemaValidator.fillField acc) f = some w := by
  induction fields generalizing acc with
  | nil => exact h
  | cons u rest ih =>
      simp only [List.foldl_cons]
      exact ih _ (fmGet_fillField_some acc u f w h)

theorem fmGet_foldl_fillField_mem (fields : List String)
    (acc : FieldMap) (f : String) (hmem : f ∈ fields)
    (h : fmGet acc f = none) :
    fmGet (fields.foldl SchemaValidator.fillField acc) f =
      some (SchemaValidator.defaultFor f) := by
  induction fields generalizing acc with
  | nil => cases hmem
  | cons u rest ih =>
      simp only [List.foldl_cons]
      by_cases hu : u = f
      · subst hu
        exact fmGet_foldl_fillField_some rest _ u _
          (fmGet_fillField_self acc u h)
      · have hr : f ∈ rest := by
          cases hmem with
          | head => exact absurd rfl hu
          | tail _ hm => exact hm
        have : fmGet (SchemaValidator.fillField acc u) f = none := by
          rw [fmGet_fillField_ne acc u f hu]; exact h
        exact ih _ hr this

/-- C5 counterexample: for a template whose `required_fields` is
`["tldr"]`, lenient filling of an empty field map injects the string
`"Summary not available"` for `tldr` — not the empty string claimed for
string-typed required fields. -/
theorem ensureRequired_tldr_counterexample :
    SchemaValidator.ensureRequiredFields []
        { requiredFields := some ["tldr"], optionalBlocks := [] } =
      [("tldr", Value.vStr "Summary not available")]
    ∧ "Summary not available" ≠ "" := by
  exact ⟨rfl, by decide⟩

/-- C5 (amended).  `ensure_required_fields` touches only the fields
listed in the template's `required_fields`: a key outside that list keeps
exactly its old lookup result (so a block output key such as `key_points`
that is missing stays missing unless it is itself required), a present
field keeps its value, and a missing required field is injected with
`"Summary not available"` for `tldr`, the empty list for `tags`, and the
empty string for any other required field. -/
theorem ensureRequired_only_required_fields (data : FieldMap)
    (tpl : Template) (f : String) :
    (f ∉ tpl.requiredFieldsOf →
      fmGet (SchemaValidator.ensureRequiredFields data tpl) f = fmGet data f)
    ∧ (∀ w, fmGet data f = some w →
        fmGet (SchemaValidator.ensureRequiredFields data tpl) f = some w)
    ∧ (f ∈ tpl.requiredFieldsOf → fmGet data f = none →
        fmGet (SchemaValidator.ensureRequiredFields data tpl) f =
          some (SchemaValidator.defaultFor f)) :=
  ⟨fun h => fmGet_foldl_fillField_not_mem _ data f h,
   fun w h => fmGet_foldl_fillField_some _ data f w h,
   fun hmem h => fmGet_foldl_fillField_mem _ data f hmem h⟩

/-- C5 (amended) witness: with `required_fields = ["tldr", "tags"]` and a
data map missing `tldr` but containing an unrelated key, `tldr` is filled
with its default while the block-style key `key_points` stays absent. -/
theorem ensureRequired_only_required_fields_witness :
    fmGet
      (SchemaValidator.ensureRequiredFields [("x", Value.vStr "v")]
        { requiredFields := some ["tldr", "tags"], optionalBlocks := [] })
      "tldr" = some (SchemaValidator.defaultFor "tldr")
    ∧ fmGet
      (SchemaValidator.ensureRequiredFields [("x", Value.vStr "v")]
        { requiredFields := some ["tldr", "tags"], optionalBlocks := [] })
      "key_points" = none :=
  ⟨(ensureRequired_only_required_fields [("x", Value.vStr "v")]
      { requiredFields := some ["tldr", "tags"], optionalBlocks := [] }
      "tldr").2.2 (by decide) rfl,
   by
    rw [(ensureRequired_only_required_fields [("x", Value.vStr "v")]
      { requiredFields := some ["tldr", "tags"], optionalBlocks := [] }
      "key_points").1 (by decide)]
    rfl⟩

/-- C6.  For a template requiring `{tldr, tags}` with one enabled block
whose output key is `key_points`, strict-mode validation of a field map
holding a string `tldr` and a list `tags` but no `key_points` is invalid
with exactly one violation, which names `key_points` (and the block's
id).  The validator is a pure function of the map — it returns only the
`(is_valid, errors)` pair, so the input map is never mutated in any
mode. -/
theorem validate_strict_missing_block_field (b : Block) (data : FieldMap)
    (s : String) (l : List Value)
    (hk : b.outputFieldKey = some "key_points")
    (hd1 : fmGet data "tldr" = some (Value.vStr s))
    (hd2 : fmGet data "tags" = some (Value.vList l))
    (hd3 : fmGet data "key_points" = none) :
    SchemaValidator.validate .strict data
      { requiredFields := some ["tldr", "tags"], optionalBlocks := [b] }
      (some [b.id]) =
      (false, [SchemaValidator.missingBlockMsg b.id "key_points"]) := by
  have hreq : SchemaValidator.requiredFieldErrors .strict data
      ["tldr", "tags"] = [] := by
    simp [SchemaValidator.requiredFieldErrors, hd1, hd2, Value.isStr,
      Value.isList]
  have hact : SchemaValidator.activeBlocks [b] (some [b.id]) = [b] := by
    simp [SchemaValidator.activeBlocks]
  have hblk : SchemaValidator.blockErrors .strict data [b] [] =
      [SchemaValidator.missingBlockMsg b.id "key_points"] := by
    simp [SchemaValidator.blockErrors, Block.effectiveKey, hk, hd3]
  simp [SchemaValidator.validate, Template.requiredFieldsOf, hreq, hact, hblk]

/-- C6 witness: a concrete template, block and field map realizing the
hypotheses. -/
theorem validate_strict_missing_block_field_witness :
    SchemaValidator.validate .strict
      [("tldr", Value.vStr "x"), ("tags", Value.vList [])]
      { requiredFields := some ["tldr", "tags"],
        optionalBlocks := [{ id := "kp", outputFieldKey := some "key_points",
                             outputFieldType := some "array",
                             enabledByDefault := true }] }
      (some ["kp"]) =
      (false, [SchemaValidator.missingBlockMsg "kp" "key_points"]) :=
  validate_strict_missing_block_field
    { id := "kp", outputFieldKey := some "key_points",
      outputFieldType := some "array", enabledByDefault := true }
    [("tldr", Value.vStr "x"), ("tags", Value.vList [])]
    "x" [] rfl rfl rfl rfl

/- ## Claims about the prompt builder -/

/-- C7.  For any configured budget (the engine's is
`DEFAULT_MAX_CHARS = 100000`, giving head 60000 and tail 30000),
truncation is the identity on input of at most `max_chars` characters,
and on longer input yields the first `int(max_chars * 0.6)` characters,
exactly one elision marker, and the last `int(max_chars * 0.3)`
characters of the input (the tail-size hypothesis `0 < max_chars * 3 / 10`
holds for every budget of at least 4, the default included). -/
theorem truncateText_spec (maxChars : Nat) (t1 t2 : List Char) :
    (t1.length ≤ maxChars → PromptBuilder.truncateText maxChars t1 = t1)
    ∧ (maxChars < t2.length → 0 < maxChars * 3 / 10 →
        PromptBuilder.truncateText maxChars t2 =
          t2.take (maxChars * 6 / 10) ++
            PromptBuilder.elisionMarker t2.length ++
            t2.drop (t2.length - maxChars * 3 / 10)) := by
  constructor
  · intro h
    simp [PromptBuilder.truncateText, h]
  · intro h h2
    have hn : ¬ (t2.length ≤ maxChars) := not_le.mpr h
    simp [PromptBuilder.truncateText, hn, PromptBuilder.pyTail, h2.ne']

/-- C7 witness: a 5-character input under a budget of 10 is returned
unchanged; an 11-character input is split into the first 6 and last 3
characters around one marker. -/
theorem truncateText_spec_witness :
    PromptBuilder.truncateText 10 "short".toList = "short".toList
    ∧ PromptBuilder.truncateText 10 "abcdefghijk".toList =
        ("abcdefghijk".toList.take 6 ++ PromptBuilder.elisionMarker 11 ++
          "abcdefghijk".toList.drop 8) := by
  constructor
  · exact (truncateText_spec 10 "short".toList []).1 (by decide)
  · rw [(truncateText_spec 10 [] "abcdefghijk".toList).2 (by decide) (by decide)]
    rfl

/-- C10.  Block resolution: an explicit empty `enabled_blocks` list
yields no active blocks (the `enabled_by_default` flags are consulted
only when the argument is `None`), an explicit list selects exactly the
catalogue blocks whose id it mentions (ids absent from the catalogue are
silently ignored), the active set is always drawn from the template's
`optional_blocks`, and the validator's active-block computation agrees
with the prompt builder's. -/
theorem resolveEnabledBlocks_spec (allBlocks : List Block)
    (ids : List String) (b : Block) :
    PromptBuilder.resolveEnabledBlocks allBlocks (some []) = []
    ∧ (b ∈ PromptBuilder.resolveEnabledBlocks allBlocks (some ids) ↔
        b ∈ allBlocks ∧ b.id ∈ ids)
    ∧ (∀ e bb, bb ∈ PromptBuilder.resolveEnabledBlocks allBlocks e →
        bb ∈ allBlocks)
    ∧ PromptBuilder.resolveEnabledBlocks allBlocks none =
        allBlocks.filter (fun bb => bb.enabledByDefault)
    ∧ SchemaValidator.activeBlocks allBlocks (some ids) =
        PromptBuilder.resolveEnabledBlocks allBlocks (some ids)
    ∧ SchemaValidator.activeBlocks allBlocks none =
        PromptBuilder.resolveEnabledBlocks allBlocks none := by
  refine ⟨?_, ?_, ?_, rfl, rfl, rfl⟩
  · simp [PromptBuilder.resolveEnabledBlocks]
  · simp [PromptBuilder.resolveEnabledBlocks, List.mem_filter]
  · intro e bb h
    cases e with
    | none => exact List.mem_of_mem_filter h
    | some l => exact List.mem_of_mem_filter h

/-- C10 witness: a one-block catalogue with the block enabled by default;
the explicit empty list still selects nothing, while naming its id
selects it. -/
theorem resolveEnabledBlocks_spec_witness :
    PromptBuilder.resolveEnabledBlocks
        [{ id := "kp", outputFieldKey := some "key_points",
           outputFieldType := some "array", enabledByDefault := true }]
        (some []) = []
    ∧ ({ id := "kp", outputFieldKey := some "key_points",
         outputFieldType := some "array", enabledByDefault := true } : Block) ∈
        PromptBuilder.resolveEnabledBlocks
          [{ id := "kp", outputFieldKey := some "key_points",
             outputFieldType := some "array", enabledByDefault := true }]
          (some ["kp"]) :=
  ⟨(resolveEnabledBlocks_spec
      [{ id := "kp", outputFieldKey := some "key_points",
         outputFieldType := some "array", enabledByDefault := true }]
      ["kp"]
      { id := "kp", outputFieldKey := some "key_points",
        outputFieldType := some "array", enabledByDefault := true }).1,
   (resolveEnabledBlocks_spec
      [{ id := "kp", outputFieldKey := some "key_points",
         outputFieldType := some "array", enabledByDefault := true }]
      ["kp"]
      { id := "kp", outputFieldKey := some "key_points",
        outputFieldType := some "array", enabledByDefault := true }).2.1.mpr
     ⟨by decide, by decide⟩⟩

/- ## Claims about the summarization engine retry loop -/

/-- C4.  With the full retry budget (`MAX_RETRIES = 2`): a run whose
every attempt raises a client/transport exception retries twice and then
propagates the attempt-2 exception to the caller; a run whose every
attempt returns data failing schema validation retries twice — each
retry appending a correction hint listing that attempt's violations to
the user message — and then returns the attempt-2 data with lenient
defaults filled in, raising nothing. -/
theorem callWithRetry_spec (tpl : Template) (enabled : List String)
    (msgs : List Message) (d : Nat → FieldMap) (e : Nat → String)
    (h0 : (SchemaValidator.validate .normal (d 0) tpl (some enabled)).1 = false)
    (h1 : (SchemaValidator.validate .normal (d 1) tpl (some enabled)).1 = false)
    (h2 : (SchemaValidator.validate .normal (d 2) tpl (some enabled)).1 = false) :
    SummarizationEngine.callWithRetry tpl enabled true
        (fun i => .error (e i)) msgs = .error (e 2)
    ∧ SummarizationEngine.callWithRetry tpl enabled true
        (fun i => .ok (d i)) msgs =
      .ok (SchemaValidator.ensureRequiredFields (d 2) tpl,
        SummarizationEngine.addCorrectionHint
          (SummarizationEngine.addCorrectionHint msgs
            (SchemaValidator.validate .normal (d 0) tpl (some enabled)).2)
          (SchemaValidator.validate .normal (d 1) tpl (some enabled)).2) := by
  constructor
  · rfl
  · simp only [SummarizationEngine.callWithRetry,
      SummarizationEngine.callWithRetryLoop, SummarizationEngine.MAX_RETRIES,
      h0, h1, h2]
    norm_num

/-- C4 witness: an empty-template run with an always-empty response map
(which fails validation for the missing `tldr`) and an always-raising
run. -/
theorem callWithRetry_spec_witness :
    SummarizationEngine.callWithRetry
        { requiredFields := some ["tldr"], optionalBlocks := [] } [] true
        (fun i => .error ("boom " ++ toString i)) [⟨"user", "u"⟩] =
      .error ("boom " ++ toString 2)
    ∧ SummarizationEngine.callWithRetry
        { requiredFields := some ["tldr"], optionalBlocks := [] } [] true
        (fun _ => .ok []) [⟨"user", "u"⟩] =
      .ok (SchemaValidator.ensureRequiredFields []
            { requiredFields := some ["tldr"], optionalBlocks := [] },
        SummarizationEngine.addCorrectionHint
          (SummarizationEngine.addCorrectionHint [⟨"user", "u"⟩]
            (SchemaValidator.validate .normal []
              { requiredFields := some ["tldr"], optionalBlocks := [] }
              (some [])).2)
          (SchemaValidator.validate .normal []
            { requiredFields := some ["tldr"], optionalBlocks := [] }
            (some [])).2) :=
  callWithRetry_spec
    { requiredFields := some ["tldr"], optionalBlocks := [] } []
    [⟨"user", "u"⟩] (fun _ => []) (fun i => "boom " ++ toString i)
    rfl rfl rfl

/- ## Claims about the stage orchestrators and state machine -/

/-- C8 counterexample: a summarize request for an episode whose status is
`"new"` (so `can_summarize` fails) is accepted — task queued, status set
to `"summarizing"` — as soon as a non-empty transcript document exists,
because `create_summary` never evaluates the guard.  And with no
transcript it is rejected as `TRANSCRIPT_NOT_FOUND`, a missing-
prerequisite error produced without consulting `can_enter`. -/
theorem createSummary_no_guard_counterexample :
    Summaries.createSummary
        { episodeStatus := some Episode.STATUS_NEW,
          transcriptText := some "text", summaryExists := false,
          taskInProgress := false } false =
      (.queued, some Episode.STATUS_SUMMARIZING)
    ∧ Episode.canSummarize Episode.STATUS_NEW = false :=
  ⟨rfl, by decide⟩

/-- C8 (amended).  `create_summary` does not gate on
`can_enter`/`can_summarize`: its outcome is independent of the episode's
status; a request is accepted iff the episode exists, a transcript with
non-empty text exists, no summary for the resolved identifier exists
unless `force`, and no `pending`/`processing` summarize task exists; the
episode-status write (`"summarizing"`) happens exactly on acceptance.
Rejections are categorized: an existing episode with no transcript
document, or one whose transcript has empty text — a status-`new`
episode in particular — gets `TRANSCRIPT_NOT_FOUND`; a non-`force`
request with an existing summary for the identifier gets
`SUMMARY_EXISTS` (already-complete); a request passing those checks with
a `pending`/`processing` summarize task on record gets
`TASK_IN_PROGRESS` (already-in-progress); none of these mutate the
episode status. -/
theorem createSummary_spec (db : Summaries.Db) (force : Bool)
    (s1 s2 : String) :
    (Summaries.createSummary { db with episodeStatus := some s1 } force =
      Summaries.createSummary { db with episodeStatus := some s2 } force)
    ∧ ((Summaries.createSummary db force).1 = .queued ↔
        db.episodeStatus.isSome = true
        ∧ (∃ txt, db.transcriptText = some txt ∧ txt ≠ "")
        ∧ (force = true ∨ db.summaryExists = false)
        ∧ db.taskInProgress = false)
    ∧ ((Summaries.createSummary db force).2 =
        if (Summaries.createSummary db force).1 = Summaries.Result.queued
        then some Episode.STATUS_SUMMARIZING else none)
    ∧ (db.episodeStatus.isSome = true →
        (db.transcriptText = none ∨ db.transcriptText = some "") →
        Summaries.createSummary db force = (.transcriptNotFound, none))
    ∧ (∀ txt, db.episodeStatus.isSome = true →
        db.transcriptText = some txt → txt ≠ "" → force = false →
        db.summaryExists = true →
        Summaries.createSummary db force = (.summaryExists, none))
    ∧ (∀ txt, db.episodeStatus.isSome = true →
        db.transcriptText = some txt → txt ≠ "" →
        (force = true ∨ db.summaryExists = false) →
        db.taskInProgress = true →
        Summaries.createSummary db force = (.taskInProgress, none)) := by
  obtain ⟨es, tt, se, tk⟩ := db
  refine ⟨rfl, ?_, ?_, ?_, ?_, ?_⟩
  · cases es with
    | none => simp [Summaries.createSummary]
    | some s =>
        cases tt with
        | none => simp [Summaries.createSummary]
        | some txt =>
            by_cases htxt : txt = ""
            · simp [Summaries.createSummary, htxt]
            · cases force <;> cases se <;> cases tk <;>
                simp [Summaries.createSummary, htxt]
  · cases es with
    | none => simp [Summaries.createSummary]
    | some s =>
        cases tt with
        | none => simp [Summaries.createSummary]
        | some txt =>
            by_cases htxt : txt = ""
            · simp [Summaries.createSummary, htxt]
            · cases force <;> cases se <;> cases tk <;>
                simp [Summaries.createSummary, htxt]
  · intro hes htt
    cases es with
    | none => simp at hes
    | some s => rcases htt with h | h <;> subst h <;> rfl
  · intro txt hes htt hne hf hse
    cases es with
    | none => simp at hes
    | some s =>
        subst htt
        subst hf
        subst hse
        simp [Summaries.createSummary, hne]
  · intro txt hes htt hne hforce htk
    cases es with
    | none => simp at hes
    | some s =>
        subst htt
        subst htk
        rcases hforce with hf | hf <;> subst hf <;>
          simp [Summaries.createSummary, hne]

/-- C8 (amended) witness: a status-`new` episode with no transcript
document and one with an empty-text transcript are both rejected as
`TRANSCRIPT_NOT_FOUND`; a non-`force` request against an existing
summary gets `SUMMARY_EXISTS`; and a request with a summarize task
already in flight gets `TASK_IN_PROGRESS`. -/
theorem createSummary_spec_witness :
    Summaries.createSummary
        { episodeStatus := some Episode.STATUS_NEW, transcriptText := none,
          summaryExists := false, taskInProgress := false } false =
      (.transcriptNotFound, none)
    ∧ Summaries.createSummary
        { episodeStatus := some Episode.STATUS_TRANSCRIBED,
          transcriptText := some "", summaryExists := false,
          taskInProgress := false } false =
      (.transcriptNotFound, none)
    ∧ Summaries.createSummary
        { episodeStatus := some Episode.STATUS_TRANSCRIBED,
          transcriptText := some "text", summaryExists := true,
          taskInProgress := false } false =
      (.summaryExists, none)
    ∧ Summaries.createSummary
        { episodeStatus := some Episode.STATUS_TRANSCRIBED,
          transcriptText := some "text", summaryExists := false,
          taskInProgress := true } false =
      (.taskInProgress, none) :=
  ⟨(createSummary_spec
      { episodeStatus := some Episode.STATUS_NEW, transcriptText := none,
        summaryExists := false, taskInProgress := false } false "x" "y").2.2.2.1
    rfl (Or.inl rfl),
   (createSummary_spec
      { episodeStatus := some Episode.STATUS_TRANSCRIBED,
        transcriptText := some "", summaryExists := false,
        taskInProgress := false } false "x" "y").2.2.2.1
    rfl (Or.inr rfl),
   (createSummary_spec
      { episodeStatus := some Episode.STATUS_TRANSCRIBED,
        transcriptText := some "text", summaryExists := true,
        taskInProgress := false } false "x" "y").2.2.2.2.1
    "text" rfl rfl (by decide) rfl rfl,
   (createSummary_spec
      { episodeStatus := some Episode.STATUS_TRANSCRIBED,
        transcriptText := some "text", summaryExists := false,
        taskInProgress := true } false "x" "y").2.2.2.2.2
    "text" rfl rfl (by decide) (Or.inr rfl) rfl⟩

/-- C9 counterexample: a transcribe job that fails with an exception
leaves the episode in the in-progress status `"transcribing"` — it is
not set back to the pre-stage status `"downloaded"` (the body has no
exception handler), so the claim's universal statement over all three
stage jobs fails. -/
theorem stageJobFailure_counterexample :
    StageJobs.transcribeSync (.error "network down")
        Episode.STATUS_TRANSCRIBING =
      (Episode.STATUS_TRANSCRIBING, .error "network down")
    ∧ Episode.STATUS_TRANSCRIBING ≠ Episode.STATUS_DOWNLOADED :=
  ⟨rfl, by decide⟩

/-- C9 (amended).  Only the summarize job restores the pre-stage status
on failure: a failed summarize job writes `"transcribed"` back and
re-raises; failed download and transcribe jobs perform no status write at
all, leaving whatever in-progress status the endpoint set — and no
failing job ever writes `"error"`.  Successful jobs write their stage's
terminal status. -/
theorem stageJobFailure_spec (e r st : String) :
    StageJobs.summarizeSync (.error e) st =
      (Episode.STATUS_TRANSCRIBED, .error e)
    ∧ StageJobs.transcribeSync (.error e) st = (st, .error e)
    ∧ StageJobs.downloadEpisodeSync (.error e) st = (st, .error e)
    ∧ StageJobs.summarizeSync (.ok r) st =
      (Episode.STATUS_SUMMARIZED, .ok r)
    ∧ StageJobs.transcribeSync (.ok r) st =
      (Episode.STATUS_TRANSCRIBED, .ok r)
    ∧ StageJobs.downloadEpisodeSync (.ok r) st =
      (Episode.STATUS_DOWNLOADED, .ok r)
    ∧ Episode.STATUS_TRANSCRIBED ≠ "error" :=
  ⟨rfl, rfl, rfl, rfl, rfl, rfl, by decide⟩

/- ## Claims about the task life cycle -/

/-- C1 counterexample: cancel a still-`pending` task (its record becomes
`failed` with `completed_at` set), then let the pool dequeue the wrapper,
which unconditionally marks the task `processing` — a reachable backward
transition `failed → processing`, after which `completed_at` is non-null
while the status is non-terminal. -/
theorem taskStatus_backward_counterexample :
    TaskQueue.Reachable
      ⟨TaskQueue.applyCancel TaskQueue.initialTask 3, .notStarted⟩
    ∧ TaskQueue.Step
        ⟨TaskQueue.applyCancel TaskQueue.initialTask 3, .notStarted⟩
        ⟨TaskQueue.applyStart (TaskQueue.applyCancel TaskQueue.initialTask 3) 4,
          .running⟩
    ∧ TaskQueue.statusRank
        (TaskQueue.applyStart
          (TaskQueue.applyCancel TaskQueue.initialTask 3) 4).status <
      TaskQueue.statusRank
        (TaskQueue.applyCancel TaskQueue.initialTask 3).status
    ∧ (TaskQueue.applyStart
        (TaskQueue.applyCancel TaskQueue.initialTask 3) 4).status =
      TaskQueue.Status.processing
    ∧ (TaskQueue.applyStart
        (TaskQueue.applyCancel TaskQueue.initialTask 3) 4).completedAt =
      some 3 :=
  ⟨Relation.ReflTransGen.single
      (TaskQueue.Step.cancel TaskQueue.initialTask .notStarted 3),
   TaskQueue.Step.start _ 4, by decide, by decide, by decide⟩

theorem invNC_reachable (s : TaskQueue.TQState)
    (h : TaskQueue.ReachableNC s) : TaskQueue.InvNC s := by
  induction h with
  | refl => exact ⟨rfl, rfl⟩
  | tail hsteps hstep ih =>
      cases hstep with
      | start t time => exact ⟨rfl, ih.2⟩
      | progress t p => exact ⟨ih.1, ih.2⟩
      | complete t r time => exact ⟨Or.inl rfl, rfl⟩
      | fail t m time => exact ⟨Or.inr rfl, rfl⟩

/-- C1 (amended).  For a task on which `cancel` is never invoked, every
reachable state satisfies: `completed_at` is non-null exactly when the
status is `completed` or `failed`, and every engine step moves the status
forward along `pending → processing → {completed, failed}` (the rank
never decreases).  On normal job return the status becomes `completed`
with progress forced to 100 and the result stored; on a raised exception
it becomes `failed` with the error message set. -/
theorem taskStatus_forward_noCancel (s s2 : TaskQueue.TQState)
    (h : TaskQueue.ReachableNC s) :
    ((s.task.completedAt.isSome = true) ↔
      (s.task.status = TaskQueue.Status.completed ∨
        s.task.status = TaskQueue.Status.failed))
    ∧ (TaskQueue.StepNC s s2 →
        TaskQueue.statusRank s.task.status ≤
          TaskQueue.statusRank s2.task.status)
    ∧ (∀ t r time, (TaskQueue.applyComplete t r time).status =
          TaskQueue.Status.completed
        ∧ (TaskQueue.applyComplete t r time).progress = 100
        ∧ (TaskQueue.applyComplete t r time).result = some r
        ∧ (TaskQueue.applyComplete t r time).completedAt = some time)
    ∧ (∀ t m time, (TaskQueue.applyFail t m time).status =
          TaskQueue.Status.failed
        ∧ (TaskQueue.applyFail t m time).errorMessage = some m
        ∧ (TaskQueue.applyFail t m time).completedAt = some time) := by
  have hinv := invNC_reachable s h
  refine ⟨?_, ?_, fun t r time => ⟨rfl, rfl, rfl, rfl⟩,
    fun t m time => ⟨rfl, rfl, rfl⟩⟩
  · obtain ⟨t, ph⟩ := s
    cases ph with
    | notStarted =>
        obtain ⟨h1, h2⟩ := hinv
        simp [h1, h2]
    | running =>
        obtain ⟨h1, h2⟩ := hinv
        simp [h1, h2]
    | done =>
        obtain ⟨h1, h2⟩ := hinv
        simp only [h2]
        simp only [true_iff]
        exact h1
  · intro hstep
    cases hstep with
    | start t time =>
        obtain ⟨h1, _⟩ := hinv
        simp [h1, TaskQueue.applyStart, TaskQueue.statusRank]
    | progress t p => exact Nat.le_refl _
    | complete t r time =>
        obtain ⟨h1, _⟩ := hinv
        simp [h1, TaskQueue.applyComplete, TaskQueue.statusRank]
    | fail t m time =>
        obtain ⟨h1, _⟩ := hinv
        simp [h1, TaskQueue.applyFail, TaskQueue.statusRank]

/-- C1 (amended) witness: the freshly submitted state (reachable by the
empty trace) — `completed_at` unset and status `pending` — and the first
engine step, which raises the rank from `pending` to `processing`. -/
theorem taskStatus_forward_noCancel_witness :
    ((TaskQueue.initState.task.completedAt.isSome = true) ↔
      (TaskQueue.initState.task.status = TaskQueue.Status.completed ∨
        TaskQueue.initState.task.status = TaskQueue.Status.failed))
    ∧ TaskQueue.statusRank TaskQueue.initState.task.status ≤
        TaskQueue.statusRank (TaskQueue.applyStart TaskQueue.initialTask 7).status :=
  ⟨(taskStatus_forward_noCancel TaskQueue.initState
      ⟨TaskQueue.applyStart TaskQueue.initialTask 7, .running⟩
      Relation.ReflTransGen.refl).1,
   (taskStatus_forward_noCancel TaskQueue.initState
      ⟨TaskQueue.applyStart TaskQueue.initialTask 7, .running⟩
      Relation.ReflTransGen.refl).2.1
     (TaskQueue.StepNC.start TaskQueue.initialTask 7)⟩
